import Mathlib

/-!
Shallow embedding of `src/app/src/main/cpp/PromptHandler.cpp`:
a prompt formatter for the Microsoft Phi chat template.  The C++ class
`PromptHandler` holds one boolean field `m_is_first_prompt`, set to `true`
by the constructor; its method `GetPromptWithTag` concatenates fixed
delimiter constants around the user text and clears the flag on the first
call.  The method mutates the instance, so it is embedded as a function
from the instance state to the returned string paired with the new state.
-/

/-- `constexpr const std::string_view c_system_prompt` (PromptHandler.cpp line 11). -/
def c_system_prompt : String :=
  "<|system|>\nYou are a helpful assistant. Be helpful but brief.<|end|>\n"

/-- `constexpr const std::string_view c_prompt_prefix` (PromptHandler.cpp line 12). -/
def c_prompt_prefix : String := "<|user|>"

/-- `constexpr const std::string_view c_end_of_prompt` (PromptHandler.cpp line 13). -/
def c_end_of_prompt : String := "\n<|end|>\n"

/-- `constexpr const std::string_view c_assistant_header` (PromptHandler.cpp line 14). -/
def c_assistant_header : String := "<|assistant|>\n"

/-- The instance state of the C++ class `PromptHandler`: its only data
member is the boolean `m_is_first_prompt`. -/
structure PromptHandler where
  m_is_first_prompt : Bool
deriving DecidableEq, Repr

/-- The constructor `PromptHandler::PromptHandler()`, which initializes
`m_is_first_prompt(true)`. -/
def PromptHandler.init : PromptHandler :=
  { m_is_first_prompt := true }

/-- `PromptHandler::GetPromptWithTag(const std::string& user_prompt)`
(PromptHandler.cpp lines 21-30).  Returns the formatted string together
with the state of the instance after the call. -/
def GetPromptWithTag (h : PromptHandler) (user_prompt : String) :
    String × PromptHandler :=
  if h.m_is_first_prompt then
    (c_system_prompt ++ c_prompt_prefix ++ user_prompt ++ c_end_of_prompt ++
        c_assistant_header,
      { m_is_first_prompt := false })
  else
    ( c_prompt_prefix ++ user_prompt ++ c_end_of_prompt ++ c_assistant_header,
      h)

/-- Run a sequence of `GetPromptWithTag` calls from a given state,
returning the final state. -/
def runFrom (h : PromptHandler) : List String → PromptHandler
  | [] => h
  | s :: rest => runFrom (GetPromptWithTag h s).2 rest

/-- The state of an instance after construction followed by the given
sequence of `GetPromptWithTag` calls. -/
def runState (ps : List String) : PromptHandler :=
  runFrom PromptHandler.init ps

/-- In both branches of `GetPromptWithTag`, the state after the call has
`m_is_first_prompt = false`: the first branch assigns `false`, the second
branch leaves the (already false) flag unchanged. -/
lemma GetPromptWithTag_snd_flag (h : PromptHandler) (s : String) :
    ((GetPromptWithTag h s).2).m_is_first_prompt = false := by
  cases hb : h.m_is_first_prompt <;> simp [GetPromptWithTag, hb]

/-- Running any further calls from a state whose flag is already `false`
keeps the flag `false`. -/
lemma runFrom_flag_false (ps : List String) (h : PromptHandler)
    (hf : h.m_is_first_prompt = false) :
    (runFrom h ps).m_is_first_prompt = false := by
  induction ps generalizing h with
  | nil => exact hf
  | cons s rest ih => exact ih _ (GetPromptWithTag_snd_flag h s)

/-- The character at index 2 of the formatted prompt of the non-first
branch is `u` (from the `<|user|>` tag). -/
lemma later_output_get2 (s : String) :
    (( c_prompt_prefix ++ s ++ c_end_of_prompt ++ c_assistant_header).data).get? 2 =
      some 'u' := by
  have hdata : ( c_prompt_prefix ++ s ++ c_end_of_prompt ++ c_assistant_header).data =
      c_prompt_prefix.data ++ (s.data ++ (c_end_of_prompt.data ++ c_assistant_header.data)) := by
    simp [String.data_append]
  rw [hdata]
  rfl

/-- A character list whose character at index 2 is `u` cannot start with
the system preamble, whose character at index 2 is `s`. -/
lemma sys_preamble_not_start (l : List Char) (hl : l.get? 2 = some 'u') :
    ¬ (c_system_prompt.data <+: l) := by
  rintro ⟨t, ht⟩
  rw [← ht] at hl
  have h3 : (c_system_prompt.data ++ t).get? 2 = some 's' := rfl
  rw [h3] at hl
  exact absurd hl (by decide)

/-- C1: on an instance whose flag is still `true`, `GetPromptWithTag`
returns `SYSTEM_PREAMBLE + USER_PREFIX + user_text + END_MARKER +
ASSISTANT_HEADER` and clears the flag; on an instance whose flag is
`false` it returns `USER_PREFIX + user_text + END_MARKER +
ASSISTANT_HEADER` (no preamble). -/
theorem GetPromptWithTag_branches (user_text : String) :
    GetPromptWithTag { m_is_first_prompt := true } user_text =
      (c_system_prompt ++ c_prompt_prefix ++ user_text ++ c_end_of_prompt ++
          c_assistant_header,
        { m_is_first_prompt := false }) ∧
    GetPromptWithTag { m_is_first_prompt := false } user_text =
      ( c_prompt_prefix ++ user_text ++ c_end_of_prompt ++ c_assistant_header,
        { m_is_first_prompt := false }) :=
  ⟨rfl, rfl⟩

/-- C2: on a fresh instance, `GetPromptWithTag "Hello"` returns exactly the
tagged Phi prompt with the system preamble, and a following
`GetPromptWithTag "How are you?"` on the same instance returns exactly the
tagged prompt without the preamble. -/
theorem GetPromptWithTag_hello_scenario :
    (GetPromptWithTag PromptHandler.init "Hello").1 =
      "<|system|>\nYou are a helpful assistant. Be helpful but brief.<|end|>\n<|user|>Hello\n<|end|>\n<|assistant|>\n" ∧
    (GetPromptWithTag (GetPromptWithTag PromptHandler.init "Hello").2
        "How are you?").1 =
      "<|user|>How are you?\n<|end|>\n<|assistant|>\n" :=
  ⟨rfl, rfl⟩

/-- C3: for every reachable state of an instance (constructed, then any
finite sequence of `GetPromptWithTag` calls), `m_is_first_prompt` is `true`
if and only if the number of completed calls is zero. -/
theorem runState_flag_iff_no_calls (ps : List String) :
    (runState ps).m_is_first_prompt = true ↔ ps.length = 0 := by
  cases ps with
  | nil => simp [runState, runFrom, PromptHandler.init]
  | cons s rest =>
      have hf := runFrom_flag_false rest _
        (GetPromptWithTag_snd_flag PromptHandler.init s)
      simp [runState, runFrom, hf]

/-- C4: the flag transition is one-way: after any nonempty sequence of
calls on a fresh instance the flag is `false`, and the next call takes the
non-first branch, so its result is the preamble-free formula and does not
start with the system preamble. -/
theorem flag_transition_one_way (ps : List String) (s : String) (h : ps ≠ []) :
    (runState ps).m_is_first_prompt = false ∧
    (GetPromptWithTag (runState ps) s).1 =
      c_prompt_prefix ++ s ++ c_end_of_prompt ++ c_assistant_header ∧
    ¬ (c_system_prompt.data <+: ((GetPromptWithTag (runState ps) s).1).data) := by
  obtain ⟨p, rest, rfl⟩ : ∃ p rest, ps = p :: rest := by
    cases ps with
    | nil => exact absurd rfl h
    | cons a b => exact ⟨a, b, rfl⟩
  have hflag : (runState (p :: rest)).m_is_first_prompt = false := by
    have hf := runFrom_flag_false rest _
      (GetPromptWithTag_snd_flag PromptHandler.init p)
    simpa [runState, runFrom] using hf
  have hout : (GetPromptWithTag (runState (p :: rest)) s).1 =
      c_prompt_prefix ++ s ++ c_end_of_prompt ++ c_assistant_header := by
    simp [GetPromptWithTag, hflag]
  refine ⟨hflag, hout, ?_⟩
  rw [hout]
  exact sys_preamble_not_start _ (later_output_get2 s)

/-- Witness for C4 at the concrete run `["a"]` followed by the call `"b"`. -/
theorem flag_transition_one_way_witness :
    (runState ["a"]).m_is_first_prompt = false ∧
    (GetPromptWithTag (runState ["a"]) "b").1 =
      c_prompt_prefix ++ "b" ++ c_end_of_prompt ++ c_assistant_header ∧
    ¬ (c_system_prompt.data <+: ((GetPromptWithTag (runState ["a"]) "b").1).data) :=
  flag_transition_one_way ["a"] "b" (by decide)

/-- C5 counterexample: the claim that a second call never returns a string
containing the system preamble fails when the second user text itself
contains the preamble.  With `s1 = "a"` and `s2 = c_system_prompt`, the
second call's result does contain the system preamble as a substring
(the user text is inserted verbatim). -/
theorem second_call_can_contain_preamble :
    c_system_prompt.data <:+:
      ((GetPromptWithTag (GetPromptWithTag PromptHandler.init "a").2
          c_system_prompt).1).data := by
  refine ⟨ c_prompt_prefix.data,
    c_end_of_prompt.data ++ c_assistant_header.data, ?_⟩
  simp [GetPromptWithTag, PromptHandler.init, String.data_append]

/-- C5 (amended): for all strings `s1, s2`, after one call on a fresh
instance, a second call returns a string that does not start with the
system preamble, that begins with the user-prefix marker `<|user|>`, and
that ends with the assistant header. -/
theorem second_call_shape (s1 s2 : String) :
    ¬ (c_system_prompt.data <+:
        ((GetPromptWithTag (GetPromptWithTag PromptHandler.init s1).2 s2).1).data) ∧
    c_prompt_prefix.data <+:
      ((GetPromptWithTag (GetPromptWithTag PromptHandler.init s1).2 s2).1).data ∧
    c_assistant_header.data <:+
      ((GetPromptWithTag (GetPromptWithTag PromptHandler.init s1).2 s2).1).data := by
  have hout : (GetPromptWithTag (GetPromptWithTag PromptHandler.init s1).2 s2).1 =
      c_prompt_prefix ++ s2 ++ c_end_of_prompt ++ c_assistant_header := rfl
  rw [hout]
  refine ⟨sys_preamble_not_start _ (later_output_get2 s2), ?_, ?_⟩
  · have hdata : ( c_prompt_prefix ++ s2 ++ c_end_of_prompt ++ c_assistant_header).data =
        c_prompt_prefix.data ++
          (s2.data ++ (c_end_of_prompt.data ++ c_assistant_header.data)) := by
      simp [String.data_append]
    rw [hdata]
    exact List.prefix_append _ _
  · have hdata : ( c_prompt_prefix ++ s2 ++ c_end_of_prompt ++ c_assistant_header).data =
        ( c_prompt_prefix.data ++ s2.data ++ c_end_of_prompt.data) ++
          c_assistant_header.data := by
      simp [String.data_append]
    rw [hdata]
    exact List.suffix_append _ _

/-- C6: the user text is inserted verbatim, with no truncation, escaping
or sanitization: in both branches the output is some fixed text, then the
user-prefix marker, immediately the user text, immediately the end marker,
then some fixed text — so delimiter-like substrings inside the user text
(such as `<|end|>`) appear literally in the output. -/
theorem user_text_verbatim (h : PromptHandler) (s : String) :
    ∃ pre post, (GetPromptWithTag h s).1 =
      pre ++ ( c_prompt_prefix ++ s ++ c_end_of_prompt) ++ post := by
  cases hb : h.m_is_first_prompt with
  | true =>
      refine ⟨c_system_prompt, c_assistant_header, String.ext ?_⟩
      simp [GetPromptWithTag, hb, String.data_append]
  | false =>
      refine ⟨"", c_assistant_header, String.ext ?_⟩
      simp [GetPromptWithTag, hb, String.data_append]

/-- C7: the empty string is an accepted input: in both flag states the
output is the branch formula with an empty gap, so the user-prefix marker
is immediately followed by the end marker. -/
theorem empty_input_formats (h : PromptHandler) :
    (∃ pre post, (GetPromptWithTag h "").1 =
        pre ++ ( c_prompt_prefix ++ c_end_of_prompt) ++ post) ∧
    (GetPromptWithTag { m_is_first_prompt := true } "").1 =
      c_system_prompt ++ c_prompt_prefix ++ "" ++ c_end_of_prompt ++
        c_assistant_header ∧
    (GetPromptWithTag { m_is_first_prompt := false } "").1 =
      c_prompt_prefix ++ "" ++ c_end_of_prompt ++ c_assistant_header := by
  refine ⟨?_, rfl, rfl⟩
  cases hb : h.m_is_first_prompt with
  | true =>
      refine ⟨c_system_prompt, c_assistant_header, String.ext ?_⟩
      simp [GetPromptWithTag, hb, String.data_append]
  | false =>
      refine ⟨"", c_assistant_header, String.ext ?_⟩
      simp [GetPromptWithTag, hb, String.data_append]

/-- C8: `GetPromptWithTag` is deterministic given the flag: two instances
with equal flags produce identical strings on the same input and end with
equal flags. -/
theorem deterministic_given_flag (h1 h2 : PromptHandler)
    (hf : h1.m_is_first_prompt = h2.m_is_first_prompt) (s : String) :
    (GetPromptWithTag h1 s).1 = (GetPromptWithTag h2 s).1 ∧
    ((GetPromptWithTag h1 s).2).m_is_first_prompt =
      ((GetPromptWithTag h2 s).2).m_is_first_prompt := by
  obtain ⟨b1⟩ := h1
  obtain ⟨b2⟩ := h2
  have hb : b1 = b2 := hf
  subst hb
  exact ⟨rfl, rfl⟩

/-- Witness for C8 at two fresh instances and the input `"x"`. -/
theorem deterministic_given_flag_witness :
    ({ m_is_first_prompt := true } : PromptHandler).m_is_first_prompt =
      ({ m_is_first_prompt := true } : PromptHandler).m_is_first_prompt ∧
    ((GetPromptWithTag { m_is_first_prompt := true } "x").1 =
        (GetPromptWithTag { m_is_first_prompt := true } "x").1 ∧
      ((GetPromptWithTag { m_is_first_prompt := true } "x").2).m_is_first_prompt =
        ((GetPromptWithTag { m_is_first_prompt := true } "x").2).m_is_first_prompt) :=
  ⟨rfl, deterministic_given_flag { m_is_first_prompt := true }
    { m_is_first_prompt := true } rfl "x"⟩

/-- C9: the embedded operation is total and has no error cases: for every
state and every input it returns a formatted string that is one of the two
branch formulas, together with a successor state. -/
theorem no_error_cases (h : PromptHandler) (s : String) :
    ∃ out h2, GetPromptWithTag h s = (out, h2) ∧
      (out = c_system_prompt ++ c_prompt_prefix ++ s ++ c_end_of_prompt ++
          c_assistant_header ∨
        out = c_prompt_prefix ++ s ++ c_end_of_prompt ++ c_assistant_header) := by
  cases hb : h.m_is_first_prompt with
  | true =>
      refine ⟨c_system_prompt ++ c_prompt_prefix ++ s ++ c_end_of_prompt ++
          c_assistant_header, { m_is_first_prompt := false }, ?_, Or.inl rfl⟩
      simp [GetPromptWithTag, hb]
  | false =>
      refine ⟨ c_prompt_prefix ++ s ++ c_end_of_prompt ++ c_assistant_header,
        h, ?_, Or.inr rfl⟩
      simp [GetPromptWithTag, hb]

/-- C10: the first-call output is exactly the system preamble prepended to
the non-first-call output for the same user text. -/
theorem first_output_eq_preamble_append_later (s : String) :
    (GetPromptWithTag { m_is_first_prompt := true } s).1 =
      c_system_prompt ++ (GetPromptWithTag { m_is_first_prompt := false } s).1 := by
  apply String.ext
  simp [GetPromptWithTag, String.data_append]
